import Mathlib

/-!
Verification of `src/homeassistant/exceptions.py` (Home Assistant error
taxonomy and condition-error tree) against its natural-language
specification.

The Python classes are shallowly embedded as Lean structures and inductive
types; generator-based line production (`output`) becomes an eager
`List String` with the same order and content; Python `int` becomes `Int`;
optional values become `Option`.  Stringification goes through a small
model of CPython's `BaseException.__str__`, which the taxonomy claims
depend on.
-/

namespace HomeAssistant

/-- A string of `n` space characters (the building block for indentation). -/
def spacesN (n : Nat) : String :=
  String.mk (List.replicate n ' ')

/-- Embeds the `ConditionError` class hierarchy of `exceptions.py` as a
closed tagged union.  Every subclass inherits the `type` attribute of
`ConditionError` (the type of the failed condition, such as "and" or
"numeric_state"):

* `message` embeds `ConditionErrorMessage(type, message)`;
* `index` embeds `ConditionErrorIndex(type, index, total, error)`, where
  `index` and `total` are Python `int`s, hence `Int` here;
* `container` embeds `ConditionErrorContainer(type, errors)`. -/
inductive ConditionError : Type where
  | message (type : String) (message : String) : ConditionError
  | index (type : String) (index : Int) (total : Int) (error : ConditionError) :
      ConditionError
  | container (type : String) (errors : List ConditionError) : ConditionError

/-- Embeds `ConditionError._indent`: `"  " * indent + message`. -/
def ConditionError.indentStr (indent : Nat) (message : String) : String :=
  String.join (List.replicate indent "  ") ++ message

mutual

/-- Embeds the `output` generator methods of the three `ConditionError`
subclasses, eagerly, as the list of yielded lines in yield order. -/
def ConditionError.output : ConditionError → Nat → List String
  | .message t m, ind =>
      [ConditionError.indentStr ind ("In '" ++ t ++ "' condition: " ++ m)]
  | .index t i n err, ind =>
      (if n > 1 then
        ConditionError.indentStr ind
          ("In '" ++ t ++ "' (item " ++ toString (i + 1) ++ " of " ++
            toString n ++ "):")
      else
        ConditionError.indentStr ind ("In '" ++ t ++ "':"))
      :: ConditionError.output err (ind + 1)
  | .container _ errs, ind => ConditionError.outputList errs ind

/-- The lines yielded by `for item in self.errors: yield from
item.output(indent)` in `ConditionErrorContainer.output`. -/
def ConditionError.outputList : List ConditionError → Nat → List String
  | [], _ => []
  | e :: es, ind => ConditionError.output e ind ++ ConditionError.outputList es ind

end

/-- Embeds `ConditionError.__str__`:
`"\n".join(list(self.output(indent=0)))`. -/
def ConditionError.str (e : ConditionError) : String :=
  String.intercalate "\n" (e.output 0)

/-- A Python value appearing among the positional arguments handed to
`Exception.__init__` by the classes of `exceptions.py`.  `exc selfRepr`
stands for an exception object passed as an argument (several `__init__`
methods pass `self`); its `repr` string is carried as an opaque parameter
since nothing here depends on its exact text. -/
inductive PyValue : Type where
  | exc (selfRepr : String) : PyValue
  | s (string : String) : PyValue

/-- CPython `str()` of a `PyValue` (as used by `BaseException.__str__` on a
one-element `args`).  For an exception object `str` falls back to its
rendering, carried here opaquely. -/
def PyValue.strFn : PyValue → String
  | .exc r => r
  | .s v => v

/-- CPython `repr()` of a `PyValue`, for strings without quote or escape
characters (the only ones these claims exercise): `repr("m") == "'m'"`. -/
def PyValue.reprFn : PyValue → String
  | .exc r => r
  | .s v => "'" ++ v ++ "'"

/-- CPython `repr()` of a tuple of two or more elements:
`"(" + ", ".join(repr(x) for x in t) + ")"`. -/
def tupleRepr (vs : List PyValue) : String :=
  "(" ++ String.intercalate ", " (vs.map PyValue.reprFn) ++ ")"

/-- CPython `BaseException.__str__` as a function of the stored `args`
tuple: empty `args` render as `""`, a single argument renders as its
`str`, and two or more arguments render as the `repr` of the whole `args`
tuple. -/
def exceptionStr : List PyValue → String
  | [] => ""
  | [a] => a.strFn
  | a :: b :: vs => tupleRepr (a :: b :: vs)

/-- Embeds `IntegrationError` (and its bodyless subclasses
`PlatformNotReady`, `ConfigEntryNotReady`, `ConfigEntryAuthFailed`, which
inherit `__str__` unchanged): `args` is the `Exception.args` tuple from
construction, `cause` the `__cause__` slot (`none` when the exception was
not raised `from` another one). -/
structure IntegrationError : Type where
  args : List PyValue
  cause : Option PyValue

/-- Embeds `PlatformNotReady`, whose class body adds nothing. -/
abbrev PlatformNotReady : Type := IntegrationError

/-- Embeds `ConfigEntryNotReady`, whose class body adds nothing. -/
abbrev ConfigEntryNotReady : Type := IntegrationError

/-- Embeds `ConfigEntryAuthFailed`, whose class body adds nothing. -/
abbrev ConfigEntryAuthFailed : Type := IntegrationError

/-- Embeds `IntegrationError.__str__`:
`return super().__str__() or str(self.__cause__)` — the base rendering if
it is non-empty (`or` tests string truthiness), else Python `str` of the
cause, which is the four-character string `"None"` when `__cause__` is
`None`. -/
def IntegrationError.toStr (e : IntegrationError) : String :=
  if exceptionStr e.args = "" then
    match e.cause with
    | none => "None"
    | some c => c.strFn
  else
    exceptionStr e.args

/-- The external `homeassistant.core.Context` type, of which
`Unauthorized.__init__` reads only the `user_id` attribute (itself
optional in the source). -/
structure Context : Type where
  user_id : Option String

/-- The attribute state of an `Unauthorized` instance after `__init__`,
together with the `Exception.args` tuple set by
`super().__init__(self.__class__.__name__)`. -/
structure Unauthorized : Type where
  args : List PyValue
  context : Option Context
  user_id : Option String
  entity_id : Option String
  config_entry_id : Option String
  perm_category : Option String
  permission : Option String

/-- Embeds `Unauthorized.__init__`.  `className` is
`self.__class__.__name__` ("Unauthorized", or "UnknownUser" for the
bodyless subclass).  `user_id` is replaced by `context.user_id` exactly
when it is `None` and a context is present; every other field is stored
as passed. -/
def Unauthorized.init (className : String) (context : Option Context)
    (user_id entity_id config_entry_id perm_category permission : Option String) :
    Unauthorized :=
  { args := [.s className]
    context := context
    user_id :=
      match user_id, context with
      | none, some c => c.user_id
      | u, _ => u
    entity_id := entity_id
    config_entry_id := config_entry_id
    perm_category := perm_category
    permission := permission }

/-- Embeds construction of `UnknownUser`, whose class body adds nothing:
only `self.__class__.__name__` differs. -/
def UnknownUser.init (context : Option Context)
    (user_id entity_id config_entry_id perm_category permission : Option String) :
    Unauthorized :=
  Unauthorized.init "UnknownUser" context user_id entity_id config_entry_id
    perm_category permission

/-- `str()` of an `Unauthorized` value: the inherited
`Exception.__str__` applied to its `args`. -/
def Unauthorized.toStr (e : Unauthorized) : String :=
  exceptionStr e.args

/-- The attribute state of a `ServiceNotFound` instance after `__init__`
(`args` also receives `(self, f"Service {domain}.{service} not found")`,
but the overriding `__str__` below never reads it, so only the fields are
kept). -/
structure ServiceNotFound : Type where
  domain : String
  service : String

/-- Embeds `ServiceNotFound.__init__`: stores `domain` and `service`. -/
def ServiceNotFound.init (domain service : String) : ServiceNotFound :=
  { domain := domain, service := service }

/-- Embeds the `ServiceNotFound.__str__` override:
`f"Unable to find service {self.domain}.{self.service}"`. -/
def ServiceNotFound.toStr (e : ServiceNotFound) : String :=
  "Unable to find service " ++ e.domain ++ "." ++ e.service

/-- The attribute state of a `MaxLengthExceeded` instance after
`__init__`. -/
structure MaxLengthExceeded : Type where
  value : String
  property_name : String
  max_length : Int

/-- Embeds `MaxLengthExceeded.__init__`: stores the three fields. -/
def MaxLengthExceeded.init (value property_name : String) (max_length : Int) :
    MaxLengthExceeded :=
  { value := value, property_name := property_name, max_length := max_length }

/-- The message string formatted inside `MaxLengthExceeded.__init__`:
`f"Value {value} for property {property_name} has a max length of
{max_length} characters"`. -/
def MaxLengthExceeded.messageText (e : MaxLengthExceeded) : String :=
  "Value " ++ e.value ++ " for property " ++ e.property_name ++
    " has a max length of " ++ toString e.max_length ++ " characters"

/-- The `Exception.args` tuple set by `MaxLengthExceeded.__init__`: the
source calls `super().__init__(self, message)`, so `args` is the
two-element tuple `(self, message)`.  `selfRepr` carries the `repr` of the
instance itself. -/
def MaxLengthExceeded.args (e : MaxLengthExceeded) (selfRepr : String) :
    List PyValue :=
  [.exc selfRepr, .s e.messageText]

/-- `str()` of a `MaxLengthExceeded` value: the class defines no
`__str__`, so the inherited `Exception.__str__` runs on the two-element
`args` tuple. -/
def MaxLengthExceeded.toStr (e : MaxLengthExceeded) (selfRepr : String) : String :=
  exceptionStr (e.args selfRepr)

/-! ### Helper lemmas about indentation and line production -/

theorem data_spacesN (n : Nat) : (spacesN n).data = List.replicate n ' ' := rfl

theorem spacesN_add (a b : Nat) : spacesN (a + b) = spacesN a ++ spacesN b := by
  apply String.ext
  rw [String.data_append, data_spacesN, data_spacesN, data_spacesN,
    List.replicate_add]

theorem join_replicate_pair (n : Nat) :
    String.join (List.replicate n "  ") = spacesN (2 * n) := by
  apply String.ext
  simp only [String.data_join, data_spacesN]
  induction n with
  | zero => simp
  | succ k ih =>
      simp only [List.replicate_succ, List.map_cons, List.flatten_cons, ih,
        Nat.mul_succ]
      rfl

theorem indentStr_eq (n : Nat) (m : String) :
    ConditionError.indentStr n m = spacesN (2 * n) ++ m := by
  rw [ConditionError.indentStr, join_replicate_pair]

mutual

theorem output_shift : ∀ (e : ConditionError) (a k : Nat),
    e.output (a + k) = (e.output k).map (fun l => spacesN (2 * a) ++ l)
  | .message t m, a, k => by
      simp [ConditionError.output, indentStr_eq, Nat.mul_add, spacesN_add,
        String.append_assoc]
  | .index t i n err, a, k => by
      have ih := output_shift err a (k + 1)
      rw [show a + (k + 1) = a + k + 1 from (Nat.add_assoc a k 1).symm] at ih
      by_cases h : n > 1 <;>
        simp [ConditionError.output, h, ih, indentStr_eq, Nat.mul_add, spacesN_add,
          String.append_assoc]
  | .container t errs, a, k => by
      have ih := outputList_shift errs a k
      simp [ConditionError.output, ih]

theorem outputList_shift : ∀ (es : List ConditionError) (a k : Nat),
    ConditionError.outputList es (a + k) =
      (ConditionError.outputList es k).map (fun l => spacesN (2 * a) ++ l)
  | [], _, _ => by simp [ConditionError.outputList]
  | e :: es, a, k => by
      have ih1 := output_shift e a k
      have ih2 := outputList_shift es a k
      simp [ConditionError.outputList, ih1, ih2]

end

theorem outputList_eq_flatten (es : List ConditionError) (ind : Nat) :
    ConditionError.outputList es ind = (es.map (fun e => e.output ind)).flatten := by
  induction es with
  | nil => rfl
  | cons e es ih => simp [ConditionError.outputList, ih]

/-! ### Claim theorems -/

/-- Claim C1: for every Indexed node `ConditionErrorIndex(t, i, n, inner)` and
indent level `k`, when `n = 1` the first yielded line is `In '{t}':` prefixed
by `2k` spaces, when `n > 1` it is `In '{t}' (item {i+1} of {n}):` prefixed by
`2k` spaces, and in either case the remaining lines are exactly the inner
error's `output (k+1)`. -/
theorem C1_indexed_output (t : String) (i n : Int) (inner : ConditionError)
    (k : Nat) :
    (n = 1 →
      (ConditionError.index t i n inner).output k =
        (spacesN (2 * k) ++ ("In '" ++ t ++ "':")) :: inner.output (k + 1)) ∧
    (n > 1 →
      (ConditionError.index t i n inner).output k =
        (spacesN (2 * k) ++
          ("In '" ++ t ++ "' (item " ++ toString (i + 1) ++ " of " ++
            toString n ++ "):")) :: inner.output (k + 1)) := by
  constructor
  · intro h
    subst h
    simp [ConditionError.output, indentStr_eq]
  · intro h
    simp [ConditionError.output, h, indentStr_eq]

/-- Witness for C1 at concrete inputs, covering both the `n = 1` and the
`n > 1` branch (the latter is the spec's concrete scenario A). -/
theorem C1_indexed_output_witness :
    (ConditionError.index "or" 0 1
      (ConditionError.message "state" "entity unavailable")).output 0 =
      ["In 'or':", "  In 'state' condition: entity unavailable"] ∧
    (ConditionError.index "and" 1 3
      (ConditionError.message "numeric_state" "value 12 is not below 10")).output 0 =
      ["In 'and' (item 2 of 3):",
       "  In 'numeric_state' condition: value 12 is not below 10"] := by
  constructor
  · rw [(C1_indexed_output "or" 0 1
      (ConditionError.message "state" "entity unavailable") 0).1 rfl]
    decide
  · rw [(C1_indexed_output "and" 1 3
      (ConditionError.message "numeric_state" "value 12 is not below 10") 0).2
      (by decide)]
    decide

/-- Claim C2: a Message node `ConditionErrorMessage(t, m)` yields at
`output 0` exactly one line `In '{t}' condition: {m}`, and at `output n`
exactly that line prefixed with `2n` spaces. -/
theorem C2_message_output (t m : String) (n : Nat) :
    (ConditionError.message t m).output 0 =
      ["In '" ++ t ++ "' condition: " ++ m] ∧
    (ConditionError.message t m).output n =
      [spacesN (2 * n) ++ ("In '" ++ t ++ "' condition: " ++ m)] := by
  refine ⟨?_, by simp [ConditionError.output, indentStr_eq]⟩
  simp only [ConditionError.output, indentStr_eq, Nat.mul_zero]
  rw [show spacesN 0 = "" from rfl]
  simp

/-- Claim C3: a Container node yields exactly the concatenation of its
children's outputs at the same indent, in order, with no header line; an
empty Container yields no lines. -/
theorem C3_container_output (t : String) (errs : List ConditionError) (k : Nat) :
    (ConditionError.container t errs).output k =
      (errs.map (fun e => e.output k)).flatten ∧
    (ConditionError.container t []).output k = [] := by
  refine ⟨?_, rfl⟩
  simp [ConditionError.output, outputList_eq_flatten]

/-- Claim C4: for every ConditionError tree, `str(tree)` equals the lines of
`tree.output(0)` joined with the newline character, exactly as
`ConditionError.__str__` computes it. -/
theorem C4_str_is_joined_output (e : ConditionError) :
    e.str = String.intercalate "\n" (e.output 0) := rfl

theorem toStr_maxlength_eq (e : MaxLengthExceeded) (r : String) :
    e.toStr r = ("(" ++ ((r ++ ", ") ++ (("'" ++ e.messageText) ++ "'"))) ++ ")" :=
  rfl

theorem head_paren (x y : String) : (("(" ++ x) ++ y).data.head? = some '(' := by
  rw [String.data_append, String.data_append]
  rfl

/-- Claim C5 is violated by the code: `MaxLengthExceeded.__init__` passes the
stray `self` as an extra positional argument to `Exception.__init__`, so
`Exception.args` is the two-element tuple `(self, message)` and the inherited
`__str__` returns the parenthesised repr of that tuple, never the formatted
message.  At the spec's concrete scenario D input, whatever the repr of the
instance is, `str()` starts with the character `(` while the formatted
message (which the claim says `str()` equals) starts with `V`. -/
theorem C5_maxlength_str_bug (selfRepr : String) :
    (MaxLengthExceeded.init "abc..." "name" 10).messageText =
      "Value abc... for property name has a max length of 10 characters" ∧
    ((MaxLengthExceeded.init "abc..." "name" 10).toStr selfRepr).data.head? =
      some '(' ∧
    (MaxLengthExceeded.init "abc..." "name" 10).toStr selfRepr ≠
      "Value abc... for property name has a max length of 10 characters" := by
  have hhead :
      ((MaxLengthExceeded.init "abc..." "name" 10).toStr selfRepr).data.head? =
        some '(' := by
    rw [toStr_maxlength_eq]
    exact head_paren _ _
  refine ⟨by decide, hhead, fun hEq => ?_⟩
  rw [hEq] at hhead
  exact absurd hhead (by decide)

/-- Counterexample to claim C6 as stated: an integration-lifecycle error
constructed with no message and raised with no cause stringifies to the
four-character string "None" (Python `str(None)`), not to the empty
string. -/
theorem C6_counterexample_no_cause :
    (IntegrationError.mk [] none).toStr = "None" ∧
    (IntegrationError.mk [] none).toStr ≠ "" := by
  constructor
  · rfl
  · decide

/-- Claim C6 (amended): an integration-lifecycle error stringifies to its own
message when that message is non-empty, otherwise to the string form of its
wrapped originating cause when one is present, and otherwise to the string
"None" (Python's rendering of the absent cause). -/
theorem C6_lifecycle_str (m : String) (c : PyValue) (cause : Option PyValue) :
    (m ≠ "" → (IntegrationError.mk [.s m] cause).toStr = m) ∧
    (IntegrationError.mk [] (some c)).toStr = c.strFn ∧
    (IntegrationError.mk [] none).toStr = "None" := by
  refine ⟨fun h => ?_, rfl, rfl⟩
  simp [IntegrationError.toStr, exceptionStr, PyValue.strFn, h]

/-- Witness for (amended) C6: a concrete non-empty message is returned
verbatim. -/
theorem C6_lifecycle_str_witness :
    (IntegrationError.mk [.s "Setup failed"] none).toStr = "Setup failed" :=
  (C6_lifecycle_str "Setup failed" (.s "x") none).1 (by decide)

/-- Claim C7: `user_id` is defaulted from the context exactly when no
explicit `user_id` is supplied; an explicit `user_id` is stored unchanged
regardless of the context; no other field is defaulted from the context; and
the string form is the kind name only, so `UnknownUser` stringifies to
"UnknownUser". -/
theorem C7_unauthorized_fields (c : Context) (u : String) (ctx : Option Context)
    (eid cid pc pm : Option String) :
    (Unauthorized.init "Unauthorized" (some c) none eid cid pc pm).user_id =
      c.user_id ∧
    (Unauthorized.init "Unauthorized" ctx (some u) eid cid pc pm).user_id =
      some u ∧
    (Unauthorized.init "Unauthorized" (some c) none eid cid pc pm).entity_id =
      eid ∧
    (Unauthorized.init "Unauthorized" (some c) none eid cid pc pm).config_entry_id =
      cid ∧
    (Unauthorized.init "Unauthorized" (some c) none eid cid pc pm).perm_category =
      pc ∧
    (Unauthorized.init "Unauthorized" (some c) none eid cid pc pm).permission =
      pm ∧
    (Unauthorized.init "Unauthorized" ctx (some u) eid cid pc pm).toStr =
      "Unauthorized" ∧
    (UnknownUser.init ctx (some u) eid cid pc pm).toStr = "UnknownUser" := by
  refine ⟨rfl, ?_, rfl, rfl, rfl, rfl, rfl, rfl⟩
  cases ctx <;> rfl

/-- Claim C8: `ServiceNotFound(domain, service)` stringifies (via its
`__str__` override) to `Unable to find service {domain}.{service}` and
exposes `domain` and `service` unchanged; concrete scenario C included. -/
theorem C8_service_not_found (d s : String) :
    (ServiceNotFound.init d s).toStr =
      "Unable to find service " ++ d ++ "." ++ s ∧
    (ServiceNotFound.init d s).domain = d ∧
    (ServiceNotFound.init d s).service = s ∧
    (ServiceNotFound.init "light" "turn_on").toStr =
      "Unable to find service light.turn_on" := by
  refine ⟨rfl, rfl, rfl, by decide⟩

/-- Claim C9: indentation is a uniform prefix transformation — for every
tree and level `k`, `output k` has the same number of lines as `output 0`,
and line for line equals `output 0` with `2k` spaces prepended. -/
theorem C9_uniform_indent (e : ConditionError) (k : Nat) :
    (e.output k).length = (e.output 0).length ∧
    e.output k = (e.output 0).map (fun line => spacesN (2 * k) ++ line) := by
  have h := output_shift e k 0
  rw [Nat.add_zero] at h
  exact ⟨by rw [h, List.length_map], h⟩

/-- Claim C10: Indexed nodes never validate `index < total` or `total ≥ 1`:
for every integer `index` and `total` (zero and negative values included)
the node renders totally, with the no-item header whenever `total ≤ 1` and
the `(item {index+1} of {total}):` header whenever `total > 1`. -/
theorem C10_indexed_no_validation (t : String) (i n : Int)
    (inner : ConditionError) (k : Nat) :
    (ConditionError.index t i n inner).output k =
      (if n > 1 then
        spacesN (2 * k) ++
          ("In '" ++ t ++ "' (item " ++ toString (i + 1) ++ " of " ++
            toString n ++ "):")
      else
        spacesN (2 * k) ++ ("In '" ++ t ++ "':")) :: inner.output (k + 1) ∧
    (ConditionError.index t i 0 inner).output k =
      (spacesN (2 * k) ++ ("In '" ++ t ++ "':")) :: inner.output (k + 1) ∧
    (ConditionError.index t i (-3) inner).output k =
      (spacesN (2 * k) ++ ("In '" ++ t ++ "':")) :: inner.output (k + 1) := by
  refine ⟨?_, ?_, ?_⟩
  · by_cases h : n > 1 <;> simp [ConditionError.output, h, indentStr_eq]
  · simp [ConditionError.output, indentStr_eq]
  · simp [ConditionError.output, indentStr_eq]

end HomeAssistant
